import Mathlib

/-!
# Verification of the TvX desktop-shell backend (`src/src-tauri/src/lib.rs`)

Shallow embedding of the three request handlers of the repository:

* `open_in_vlc` — locate the VLC executable through a platform-conditional
  probe sequence and spawn it on a URL;
* `open_video_window` — build a `video-window?...` front-end route and a
  timestamp-derived window label, then ask the GUI framework for a window;
* `report_playback_progress` — package four fields into a payload and
  broadcast it under the `playback-progress` event.

Embedding conventions:

* Rust `String` values are embedded as `List Char` (Rust `char` and Lean
  `Char` are both Unicode scalar values); string literals are written
  `"...".data`.
* `f64` values are embedded as the exact rational each finite double
  denotes (`ℚ`); the only float operations the code performs — comparison
  with `0.0` and the saturating truncating cast `as i64` — agree with IEEE
  semantics under this embedding (NaN inputs, which fail every comparison,
  are outside the embedding).
* Effects are made explicit: the results of `which::which`, `std::env::var`,
  `Path::exists`, `Command::spawn`, window construction and event emission
  are supplied as components of an environment value, and each handler
  returns both its `Result` and a record of the effect it requested.
* `SystemTime::now().duration_since(UNIX_EPOCH)` is embedded as a signed
  nanosecond clock reading `clock_nanos : ℤ`; the `Err` branch of
  `duration_since` corresponds to `clock_nanos < 0`.
* `PathBuf::join` on the Windows probe paths is embedded as appending the
  backslash-separated suffix, and `to_string_lossy` on the (already UTF-8)
  paths is the identity.
-/

namespace TvX

/-! ## Decimal rendering (Rust `Display` for integers) -/

/-- The character for a decimal digit `n < 10`. -/
def digitChar (n : ℕ) : Char := Char.ofNat (48 + n)

/-- Fuel-driven base-10 rendering; `fuel > n` suffices. -/
def natDecimalGo (fuel : ℕ) (n : ℕ) : List Char :=
  match fuel with
  | 0 => []
  | fuel + 1 =>
    if n < 10 then [digitChar n]
    else natDecimalGo fuel (n / 10) ++ [digitChar (n % 10)]

/-- Base-10 rendering of a natural number, as Rust `{}` formatting prints it. -/
def natDecimal (n : ℕ) : List Char := natDecimalGo (n + 1) n

/-- Base-10 rendering of an integer, as Rust `{}` formatting prints it. -/
def intDecimal (i : ℤ) : List Char :=
  if i < 0 then '-' :: natDecimal (-i).toNat else natDecimal i.toNat

/-! ## Percent-encoding (the `urlencoding` crate) -/

/-- Uppercase hexadecimal digit for `n < 16`. -/
def hexDigit (n : ℕ) : Char :=
  if n < 10 then Char.ofNat (48 + n) else Char.ofNat (55 + n)

/-- `%XX` escape of one byte. -/
def pctByte (b : ℕ) : List Char := ['%', hexDigit (b / 16), hexDigit (b % 16)]

/-- UTF-8 encoding of a Unicode scalar value. -/
def utf8Bytes (n : ℕ) : List ℕ :=
  if n < 128 then [n]
  else if n < 2048 then [192 + n / 64, 128 + n % 64]
  else if n < 65536 then [224 + n / 4096, 128 + n / 64 % 64, 128 + n % 64]
  else [240 + n / 262144, 128 + n / 4096 % 64, 128 + n / 64 % 64, 128 + n % 64]

/-- Bytes the `urlencoding` crate passes through unescaped:
ASCII alphanumerics and `-`, `.`, `_`, `~`. -/
def allowedByte (b : ℕ) : Bool :=
  (48 ≤ b && b ≤ 57) || (65 ≤ b && b ≤ 90) || (97 ≤ b && b ≤ 122) ||
    b == 45 || b == 46 || b == 95 || b == 126

/-- Encoding of one byte: kept verbatim when allowed, `%XX` otherwise. -/
def encodeByte (b : ℕ) : List Char :=
  if allowedByte b then [Char.ofNat b] else pctByte b

/-- `urlencoding::encode`: percent-encode the UTF-8 bytes of a string. -/
def urlencode (s : List Char) : List Char :=
  (((s.map fun c => utf8Bytes c.toNat).flatten).map encodeByte).flatten

/-! ## The `f64 as i64` cast -/

/-- `i64::MAX`. -/
def i64_max_val : ℤ := 9223372036854775807

/-- `i64::MIN`. -/
def i64_min_val : ℤ := -9223372036854775808

/-- Rust's `as i64` cast of a finite double: truncation toward zero,
saturating at the `i64` bounds. -/
def f64_as_i64 (q : ℚ) : ℤ :=
  let t : ℤ :=
    if q.num < 0 then -(((-q.num).toNat / q.den : ℕ) : ℤ)
    else ((q.num.toNat / q.den : ℕ) : ℤ)
  max i64_min_val (min t i64_max_val)

/-! ## `open_in_vlc` -/

/-- The three `cfg!(target_os = ...)` cases distinguished by the code. -/
inductive TargetOs : Type
  | windows : TargetOs
  | macos : TargetOs
  | other : TargetOs
deriving DecidableEq

/-- Environment an `open_in_vlc` call runs against: platform, the outcomes
of the two `which::which` lookups, the two `Program Files` environment
variables, the filesystem existence oracle, and the spawn oracle. -/
structure VlcEnv : Type where
  target_os : TargetOs
  which_vlc : Option (List Char)
  which_vlc_exe : Option (List Char)
  program_files : Option (List Char)
  program_files_x86 : Option (List Char)
  file_exists : List Char → Bool
  spawn : List Char → List (List Char) → Except (List Char) Unit

/-- `PathBuf::from(pf).join("VideoLAN").join("VLC").join("vlc.exe")`. -/
def winVlcPath (pf : List Char) : List Char :=
  pf ++ "\\VideoLAN\\VLC\\vlc.exe".data

/-- The fixed macOS application-bundle path probed by the code. -/
def macVlcPath : List Char := "/Applications/VLC.app/Contents/MacOS/VLC".data

/-- One `or_else` arm of the Windows probe: read a `Program Files` variable
(`?` propagates absence), build the fixed relative path, and accept it only
if `path.exists()`. -/
def programFilesCandidate (pfVar : Option (List Char))
    (file_exists : List Char → Bool) : Option (List Char) :=
  pfVar.bind fun pf =>
    if file_exists (winVlcPath pf) then some (winVlcPath pf) else none

/-- The macOS fallback: the bundle path, accepted only if it exists. -/
def macCandidate (file_exists : List Char → Bool) : Option (List Char) :=
  if file_exists macVlcPath then some macVlcPath else none

/-- The `vlc_path` computation of `open_in_vlc` (lib.rs lines 10–34):
`which("vlc").or(which("vlc.exe")).or_else(ProgramFiles).or_else(ProgramFiles(x86))`
on Windows, `which("vlc").or_else(bundle path)` on macOS, and a bare
`which("vlc")` elsewhere. -/
def locate_vlc (env : VlcEnv) : Option (List Char) :=
  match env.target_os with
  | .windows =>
      ((env.which_vlc.or env.which_vlc_exe).or
          (programFilesCandidate env.program_files env.file_exists)).or
        (programFilesCandidate env.program_files_x86 env.file_exists)
  | .macos => env.which_vlc.or (macCandidate env.file_exists)
  | .other => env.which_vlc

/-- The not-found message of lib.rs line 37. -/
def vlc_not_found_msg : List Char :=
  "VLC not found. Install VLC and ensure it is in your PATH or in Program Files (Windows).".data

/-- The `format!("Failed to start VLC: {}", e)` prefix of lib.rs line 43. -/
def spawn_fail_msg : List Char := "Failed to start VLC: ".data

/-- Observable outcome of one `open_in_vlc` call: the returned `Result`,
and the spawn request issued to the OS (program and argument list), if any. -/
structure VlcCall : Type where
  result : Except (List Char) Unit
  spawned : Option (List Char × List (List Char))

/-- `open_in_vlc` (lib.rs lines 9–45): locate VLC, fail with the fixed
message when absent, otherwise spawn it with the URL as sole argument and
surface a formatted spawn error, never looking at the child again. -/
def open_in_vlc (env : VlcEnv) (url : List Char) : VlcCall :=
  match locate_vlc env with
  | none => ⟨.error vlc_not_found_msg, none⟩
  | some vlc_path =>
    match env.spawn vlc_path [url] with
    | .error e => ⟨.error (spawn_fail_msg ++ e), some (vlc_path, [url])⟩
    | .ok _ => ⟨.ok (), some (vlc_path, [url])⟩

/-- The documented probe sequence, in source order, with each candidate
already filtered by its existence check. -/
def vlc_candidates (env : VlcEnv) : List (Option (List Char)) :=
  match env.target_os with
  | .windows =>
      [env.which_vlc, env.which_vlc_exe,
        programFilesCandidate env.program_files env.file_exists,
        programFilesCandidate env.program_files_x86 env.file_exists]
  | .macos => [env.which_vlc, macCandidate env.file_exists]
  | .other => [env.which_vlc]

/-- First `some` of a candidate list (what "stop at the first existing
match" means for a probe sequence). -/
def firstSome {α : Type} : List (Option α) → Option α
  | [] => none
  | o :: rest => o.or (firstSome rest)

/-! ## `open_video_window` -/

/-- Arguments of `open_video_window` (lib.rs lines 50–57). -/
structure WindowArgs : Type where
  title : List Char
  stream_url : List Char
  start_position_secs : Option ℚ
  server_id : Option (List Char)
  content_type : Option (List Char)
  content_id : Option ℤ

/-- `duration_since(UNIX_EPOCH).unwrap_or_default().as_millis()`:
a pre-epoch clock yields the default (zero) duration. -/
def millisOfNanos (clock_nanos : ℤ) : ℕ :=
  if clock_nanos < 0 then 0 else clock_nanos.toNat / 1000000

/-- `format!("video-{}", millis)` (lib.rs lines 59–65). -/
def videoLabel (clock_nanos : ℤ) : List Char :=
  "video-".data ++ natDecimal (millisOfNanos clock_nanos)

/-- The route built by `open_video_window` (lib.rs lines 66–81), as the
code builds it: a mutable string extended by one conditional `push_str`
per optional parameter. -/
def videoRoute (a : WindowArgs) : List Char :=
  let encoded := urlencode a.stream_url
  let path := "video-window?url=".data ++ encoded
  let path :=
    match a.start_position_secs with
    | some t =>
        if 0 < t then path ++ ("&t=".data ++ intDecimal (max (f64_as_i64 t) 0))
        else path
    | none => path
  let path :=
    match a.server_id with
    | some id => path ++ ("&serverId=".data ++ urlencode id)
    | none => path
  let path :=
    match a.content_type with
    | some ct => path ++ ("&contentType=".data ++ urlencode ct)
    | none => path
  let path :=
    match a.content_id with
    | some id => path ++ ("&contentId=".data ++ intDecimal id)
    | none => path
  path

/-- The window-construction request handed to the GUI framework. -/
structure WindowRequest : Type where
  label : List Char
  route : List Char
  title : List Char
  width : ℚ
  height : ℚ

/-- `open_video_window` (lib.rs lines 50–89): build the label and route,
request a 960×640 window, and surface the framework's error text on
rejection. `buildWindow` is the framework's window-construction oracle. -/
def open_video_window (buildWindow : WindowRequest → Except (List Char) Unit)
    (clock_nanos : ℤ) (a : WindowArgs) :
    Except (List Char) Unit × WindowRequest :=
  let req : WindowRequest :=
    ⟨videoLabel clock_nanos, videoRoute a, a.title, 960, 640⟩
  match buildWindow req with
  | .error e => (.error e, req)
  | .ok _ => (.ok (), req)

/-- Modelled from the spec's route contract: the `t` query segment,
present exactly when a positive resume position was supplied. -/
def tSeg (o : Option ℚ) : List Char :=
  match o with
  | some t => if 0 < t then "&t=".data ++ intDecimal (max (f64_as_i64 t) 0) else []
  | none => []

/-- Modelled from the spec's route contract: an optional percent-encoded
string-valued query segment. -/
def strSeg (field : List Char) (o : Option (List Char)) : List Char :=
  match o with
  | some v => field ++ urlencode v
  | none => []

/-- Modelled from the spec's route contract: an optional integer-valued
query segment. -/
def intSeg (field : List Char) (o : Option ℤ) : List Char :=
  match o with
  | some v => field ++ intDecimal v
  | none => []

/-- Modelled from the spec's words (§6): the canonical route
`video-window?url=<enc>&t=<int>&serverId=<enc>&contentType=<enc>&contentId=<int>`
with optional segments in that stable order, each present at most once. -/
def videoRoute_spec (a : WindowArgs) : List Char :=
  "video-window?url=".data ++ urlencode a.stream_url ++
    tSeg a.start_position_secs ++
    strSeg "&serverId=".data a.server_id ++
    strSeg "&contentType=".data a.content_type ++
    intSeg "&contentId=".data a.content_id

/-! ## `report_playback_progress` -/

/-- The `Payload` struct of lib.rs lines 100–106; its exact four fields. -/
structure Payload : Type where
  server_id : List Char
  content_type : List Char
  content_id : ℤ
  progress_secs : ℚ
deriving DecidableEq

/-- An emission request: event name and payload. -/
structure EmitCall : Type where
  event : List Char
  payload : Payload
deriving DecidableEq

/-- The broadcast event name of lib.rs line 113. -/
def playback_progress_event : List Char := "playback-progress".data

/-- `report_playback_progress` (lib.rs lines 93–117): build the payload,
emit it under `playback-progress`, surface the bus's error text on
failure. `emit` is the event-bus oracle; the call record is returned
alongside the `Result`. -/
def report_playback_progress
    (emit : List Char → Payload → Except (List Char) Unit)
    (server_id content_type : List Char) (content_id : ℤ)
    (progress_secs : ℚ) :
    Except (List Char) Unit × EmitCall :=
  let payload : Payload := ⟨server_id, content_type, content_id, progress_secs⟩
  let call : EmitCall := ⟨playback_progress_event, payload⟩
  match emit call.event call.payload with
  | .error e => (.error e, call)
  | .ok _ => (.ok (), call)

end TvX


namespace TvX

/-! ## Helper lemmas -/

lemma digitChar_toNat (k : ℕ) (h : k < 10) : (digitChar k).toNat = 48 + k := by
  have step : ∀ j : Fin 10, (digitChar j.val).toNat = 48 + j.val := by decide
  exact step ⟨k, h⟩

/-- Accumulator step used to read a decimal rendering back. -/
def decStep (acc : ℕ) (c : Char) : ℕ := 10 * acc + (c.toNat - 48)

lemma foldl_natDecimalGo (fuel : ℕ) : ∀ n acc : ℕ, n < fuel →
    List.foldl decStep acc (natDecimalGo fuel n)
      = acc * 10 ^ (natDecimalGo fuel n).length + n := by
  induction fuel with
  | zero => intro n acc h; omega
  | succ fuel ih =>
    intro n acc h
    by_cases hn : n < 10
    · simp only [natDecimalGo, if_pos hn]
      simp [decStep, digitChar_toNat n hn]
      omega
    · simp only [natDecimalGo, if_neg hn]
      rw [List.foldl_append]
      rw [ih (n / 10) acc (by omega)]
      simp only [List.foldl_cons, List.foldl_nil, List.length_append,
        List.length_singleton]
      simp only [decStep, digitChar_toNat (n % 10) (Nat.mod_lt _ (by norm_num))]
      have hp : acc * 10 ^ ((natDecimalGo fuel (n / 10)).length + 1)
          = acc * 10 ^ (natDecimalGo fuel (n / 10)).length * 10 := by ring
      rw [hp]
      generalize acc * 10 ^ (natDecimalGo fuel (n / 10)).length = X
      omega

lemma natDecimal_inj {m n : ℕ} (h : natDecimal m = natDecimal n) : m = n := by
  have hm := foldl_natDecimalGo (m + 1) m 0 (by omega)
  have hn := foldl_natDecimalGo (n + 1) n 0 (by omega)
  unfold natDecimal at h
  rw [h] at hm
  rw [hm] at hn
  omega

lemma locate_vlc_eq_firstSome (env : VlcEnv) :
    locate_vlc env = firstSome (vlc_candidates env) := by
  rcases env with ⟨os, w1, w2, pf, pfx, fe, sp⟩
  cases os <;>
    simp [locate_vlc, vlc_candidates, firstSome, Option.or_assoc]

lemma firstSome_eq_none {α : Type} {l : List (Option α)}
    (h : ∀ c ∈ l, c = none) : firstSome l = none := by
  induction l with
  | nil => rfl
  | cons o rest ih =>
    rw [firstSome, h o (by simp), ih fun c hc => h c (by simp [hc])]
    rfl

lemma open_video_window_req (buildWindow : WindowRequest → Except (List Char) Unit)
    (clock_nanos : ℤ) (a : WindowArgs) :
    (open_video_window buildWindow clock_nanos a).2
      = ⟨videoLabel clock_nanos, videoRoute a, a.title, 960, 640⟩ := by
  cases h : buildWindow ⟨videoLabel clock_nanos, videoRoute a, a.title, 960, 640⟩ <;>
    simp [open_video_window, h]

lemma videoRoute_eq_spec (a : WindowArgs) : videoRoute a = videoRoute_spec a := by
  rcases a with ⟨t, u, s, sid, ct, cid⟩
  cases s <;> cases sid <;> cases ct <;> cases cid <;>
    simp only [videoRoute, videoRoute_spec, tSeg, strSeg, intSeg,
      List.append_assoc, List.append_nil] <;>
    split <;>
    simp [List.append_assoc]

lemma f64_as_i64_of_nonneg (q : ℚ) (h : 0 ≤ q) (hle : ⌊q⌋ ≤ i64_max_val) :
    f64_as_i64 q = ⌊q⌋ := by
  simp only [f64_as_i64]
  have hn : 0 ≤ q.num := Rat.num_nonneg.mpr h
  rw [if_neg (by omega)]
  have hq : ((q.num.toNat / q.den : ℕ) : ℤ) = ⌊q⌋ := by
    rw [Rat.floor_def, Int.natCast_div, Int.toNat_of_nonneg hn]
  rw [hq]
  have h0 : 0 ≤ ⌊q⌋ := Int.floor_nonneg.mpr h
  rw [min_eq_left hle]
  exact max_eq_right (by unfold i64_min_val; omega)

end TvX

namespace TvX

/-! ## Claim theorems -/

/-- Claim C1: on every platform, `open_in_vlc` resolves the player through
the documented fixed probe sequence (`vlc_candidates` lists it in source
order, each location filtered by its existence check) and returns the first
existing match; in particular, whenever the first candidate is absent and
the second exists, the second one — not the first — is returned. -/
theorem open_in_vlc_probe_order (env : VlcEnv) :
    locate_vlc env = firstSome (vlc_candidates env) ∧
    ∀ x rest, vlc_candidates env = none :: some x :: rest →
      locate_vlc env = some x := by
  refine ⟨locate_vlc_eq_firstSome env, ?_⟩
  intro x rest hr
  rw [locate_vlc_eq_firstSome env, hr]
  rfl

/-- A Windows environment where only the `vlc.exe` PATH probe succeeds. -/
def envSecondOnly : VlcEnv :=
  ⟨.windows, none, some "C:\\tools\\vlc.exe".data, none, none,
    fun _ => false, fun _ _ => .ok ()⟩

/-- Claim C1 witness: with only the second candidate present, the probe
returns that candidate. -/
theorem open_in_vlc_probe_order_witness :
    locate_vlc envSecondOnly = some "C:\\tools\\vlc.exe".data :=
  (open_in_vlc_probe_order envSecondOnly).2 "C:\\tools\\vlc.exe".data
    [none, none] rfl

/-- Claim C7: when every probe location fails, `open_in_vlc` returns the
fixed non-empty install-VLC error message and requests no spawn. -/
theorem open_in_vlc_not_found (env : VlcEnv) (url : List Char)
    (h : ∀ c ∈ vlc_candidates env, c = none) :
    (open_in_vlc env url).result = .error vlc_not_found_msg ∧
    vlc_not_found_msg ≠ [] ∧
    (open_in_vlc env url).spawned = none := by
  have hl : locate_vlc env = none := by
    rw [locate_vlc_eq_firstSome env]
    exact firstSome_eq_none h
  refine ⟨?_, by decide, ?_⟩ <;> simp [open_in_vlc, hl]

/-- A Windows environment with no VLC anywhere (PATH misses, the variable
that is set points at a directory without the executable). -/
def envNoVlc : VlcEnv :=
  ⟨.windows, none, none, some "C:\\Program Files".data, none,
    fun _ => false, fun _ _ => .ok ()⟩

/-- Claim C7 witness. -/
theorem open_in_vlc_not_found_witness :
    (open_in_vlc envNoVlc "http://stream".data).result = .error vlc_not_found_msg ∧
    vlc_not_found_msg ≠ [] ∧
    (open_in_vlc envNoVlc "http://stream".data).spawned = none :=
  open_in_vlc_not_found envNoVlc "http://stream".data (by decide)

/-- Claim C8: when a player executable is located, `open_in_vlc` spawns
exactly that executable with the URL as its sole argument; a rejected
spawn surfaces `Failed to start VLC: ` plus the OS error text, and an
accepted spawn yields success (the model's spawn outcome carries no exit
status or output, so the result cannot depend on them). -/
theorem open_in_vlc_spawn (env : VlcEnv) (url vlc_path : List Char)
    (h : locate_vlc env = some vlc_path) :
    (open_in_vlc env url).spawned = some (vlc_path, [url]) ∧
    (∀ e, env.spawn vlc_path [url] = .error e →
      (open_in_vlc env url).result = .error (spawn_fail_msg ++ e)) ∧
    (env.spawn vlc_path [url] = .ok () →
      (open_in_vlc env url).result = .ok ()) := by
  cases hs : env.spawn vlc_path [url] <;> simp [open_in_vlc, h, hs]

/-- A Unix-like environment where VLC is on PATH and the spawn is accepted. -/
def envSpawnOk : VlcEnv :=
  ⟨.other, some "/usr/bin/vlc".data, none, none, none,
    fun _ => false, fun _ _ => .ok ()⟩

/-- A Unix-like environment where VLC is on PATH but the OS rejects the
spawn with `os error 13`. -/
def envSpawnErr : VlcEnv :=
  ⟨.other, some "/usr/bin/vlc".data, none, none, none,
    fun _ => false, fun _ _ => .error "os error 13".data⟩

/-- Claim C8 witness: both spawn outcomes at concrete environments. -/
theorem open_in_vlc_spawn_witness :
    ((open_in_vlc envSpawnOk "http://u".data).spawned
        = some ("/usr/bin/vlc".data, ["http://u".data]) ∧
      (open_in_vlc envSpawnOk "http://u".data).result = .ok ()) ∧
    (open_in_vlc envSpawnErr "http://u".data).result
        = .error (spawn_fail_msg ++ "os error 13".data) :=
  ⟨⟨(open_in_vlc_spawn envSpawnOk "http://u".data "/usr/bin/vlc".data rfl).1,
    (open_in_vlc_spawn envSpawnOk "http://u".data "/usr/bin/vlc".data rfl).2.2 rfl⟩,
    (open_in_vlc_spawn envSpawnErr "http://u".data "/usr/bin/vlc".data rfl).2.1
      "os error 13".data rfl⟩

/-- Claim C2: for every combination of present and absent optional
parameters, the route `open_video_window` hands to the window equals the
canonical spec form: `video-window?url=<enc>` followed by the `t`,
`serverId`, `contentType`, `contentId` segments in that stable order,
each present exactly once when its parameter was supplied (`t` only when
positive), the string-valued ones percent-encoded. -/
theorem open_video_window_route
    (buildWindow : WindowRequest → Except (List Char) Unit)
    (clock_nanos : ℤ) (a : WindowArgs) :
    (open_video_window buildWindow clock_nanos a).2.route = videoRoute_spec a := by
  rw [open_video_window_req]
  exact videoRoute_eq_spec a

end TvX

namespace TvX

/-- Claim C3: a `start_position_secs` that is absent, zero, or negative
leaves the `t` parameter out of the route (the route is the one built with
no resume position at all), while `125.7` puts `t=125` — the position
truncated to an integer — into it. -/
theorem open_video_window_resume
    (buildWindow : WindowRequest → Except (List Char) Unit)
    (clock_nanos : ℤ) (a : WindowArgs) :
    ((a.start_position_secs = none ∨
        ∃ q, a.start_position_secs = some q ∧ q ≤ 0) →
      (open_video_window buildWindow clock_nanos a).2.route =
        (open_video_window buildWindow clock_nanos
          { a with start_position_secs := none }).2.route) ∧
    (a.start_position_secs = some (125.7 : ℚ) →
      ∃ l r, (open_video_window buildWindow clock_nanos a).2.route
        = l ++ "&t=125".data ++ r) := by
  constructor
  · intro h
    have ht : tSeg a.start_position_secs = [] := by
      rcases h with h | ⟨q, hq, hq0⟩
      · rw [h]
        rfl
      · rw [hq]
        simp [tSeg, not_lt.mpr hq0]
    rw [open_video_window_req, open_video_window_req]
    show videoRoute a = videoRoute _
    rw [videoRoute_eq_spec, videoRoute_eq_spec]
    simp [videoRoute_spec, ht, show tSeg none = [] from rfl]
  · intro h
    have h0 : (0 : ℚ) ≤ 125.7 := by norm_num
    have hf : ⌊(125.7 : ℚ)⌋ = 125 := by
      rw [Int.floor_eq_iff]
      norm_num
    have ht : tSeg a.start_position_secs = "&t=125".data := by
      rw [h]
      simp only [tSeg]
      rw [if_pos (by norm_num)]
      rw [f64_as_i64_of_nonneg _ h0 (by rw [hf]; decide), hf]
      decide
    refine ⟨"video-window?url=".data ++ urlencode a.stream_url,
      strSeg "&serverId=".data a.server_id ++
        strSeg "&contentType=".data a.content_type ++
        intSeg "&contentId=".data a.content_id, ?_⟩
    rw [open_video_window_req]
    show videoRoute a = _
    rw [videoRoute_eq_spec]
    simp [videoRoute_spec, ht, List.append_assoc]

/-- Window arguments with a negative resume position. -/
def argsNeg : WindowArgs :=
  ⟨"Movie".data, "http://x".data, some (-3), some "srv".data, none, none⟩

/-- Window arguments with resume position `125.7`. -/
def args1257 : WindowArgs :=
  ⟨"Movie".data, "http://x".data, some (125.7 : ℚ), none, none, none⟩

/-- Claim C3 witness: both halves at concrete arguments. -/
theorem open_video_window_resume_witness :
    ((open_video_window (fun _ => .ok ()) 0 argsNeg).2.route =
      (open_video_window (fun _ => .ok ()) 0
        { argsNeg with start_position_secs := none }).2.route) ∧
    ∃ l r, (open_video_window (fun _ => .ok ()) 0 args1257).2.route
      = l ++ "&t=125".data ++ r :=
  ⟨(open_video_window_resume (fun _ => .ok ()) 0 argsNeg).1
      (Or.inr ⟨-3, rfl, by norm_num⟩),
    (open_video_window_resume (fun _ => .ok ()) 0 args1257).2 rfl⟩

/-- Claim C9: for a resume position strictly between 0 and 1 the route
does contain a `t=0` segment — the positivity test runs on the float
before truncation, so a zero `t` value can appear even though the route
contract announces `t` only when positive. -/
theorem open_video_window_t_zero
    (buildWindow : WindowRequest → Except (List Char) Unit)
    (clock_nanos : ℤ) (a : WindowArgs) (q : ℚ)
    (hq : a.start_position_secs = some q) (h0 : 0 < q) (h1 : q < 1) :
    ∃ l r, (open_video_window buildWindow clock_nanos a).2.route
      = l ++ "&t=0".data ++ r := by
  have hf : ⌊q⌋ = 0 := Int.floor_eq_zero_iff.mpr (Set.mem_Ico.mpr ⟨le_of_lt h0, h1⟩)
  have ht : tSeg a.start_position_secs = "&t=0".data := by
    rw [hq]
    simp only [tSeg]
    rw [if_pos h0]
    rw [f64_as_i64_of_nonneg q (le_of_lt h0) (by rw [hf]; decide), hf]
    decide
  refine ⟨"video-window?url=".data ++ urlencode a.stream_url,
    strSeg "&serverId=".data a.server_id ++
      strSeg "&contentType=".data a.content_type ++
      intSeg "&contentId=".data a.content_id, ?_⟩
  rw [open_video_window_req]
  show videoRoute a = _
  rw [videoRoute_eq_spec]
  simp [videoRoute_spec, ht, List.append_assoc]

/-- The rational one half, in normal form. -/
def oneHalf : ℚ := ⟨1, 2, by norm_num, by norm_num⟩

/-- Window arguments with resume position one half. -/
def argsHalf : WindowArgs :=
  ⟨"Movie".data, "http://x".data, some oneHalf, none, none, none⟩

/-- Claim C9 witness: at resume position `0.5` the route carries `t=0`. -/
theorem open_video_window_t_zero_witness :
    ∃ l r, (open_video_window (fun _ => .ok ()) 0 argsHalf).2.route
      = l ++ "&t=0".data ++ r :=
  open_video_window_t_zero (fun _ => .ok ()) 0 argsHalf oneHalf rfl
    (by decide) (by decide)

end TvX

namespace TvX

/-- Baseline window arguments used by the clock-related theorems. -/
def argsBase : WindowArgs :=
  ⟨"Movie".data, "http://x".data, none, none, none, none⟩

/-- Claim C4 counterexample: two distinct instants inside the same
millisecond (nanosecond clock readings 2000000 and 2000001) make
`open_video_window` generate the same window identifier, so identifiers
of two calls in one millisecond are not distinct. -/
theorem open_video_window_label_collision :
    (2000000 : ℤ) ≠ 2000001 ∧
    millisOfNanos 2000000 = millisOfNanos 2000001 ∧
    (open_video_window (fun _ => .ok ()) 2000000 argsBase).2.label
      = (open_video_window (fun _ => .ok ()) 2000001 argsBase).2.label := by
  refine ⟨by decide, by decide, ?_⟩
  rw [open_video_window_req, open_video_window_req]
  decide

/-- Claim C4 (amended): two `open_video_window` calls generate distinct
window identifiers exactly when their clock readings fall in distinct
milliseconds; within one millisecond the labels collide. -/
theorem open_video_window_label_distinct_iff
    (buildWindow : WindowRequest → Except (List Char) Unit)
    (a : WindowArgs) (n1 n2 : ℤ) :
    (open_video_window buildWindow n1 a).2.label
        = (open_video_window buildWindow n2 a).2.label
      ↔ millisOfNanos n1 = millisOfNanos n2 := by
  rw [open_video_window_req, open_video_window_req]
  show videoLabel n1 = videoLabel n2 ↔ _
  unfold videoLabel
  constructor
  · intro h
    exact natDecimal_inj (List.append_cancel_left h)
  · intro h
    rw [h]

/-- Claim C10: `open_video_window` is total in the clock — a reading
earlier than the UNIX epoch makes `duration_since` fail, the duration
default to zero, and the window label come out as `video-0`. -/
theorem open_video_window_pre_epoch
    (buildWindow : WindowRequest → Except (List Char) Unit)
    (a : WindowArgs) (n : ℤ) (h : n < 0) :
    (open_video_window buildWindow n a).2.label = "video-0".data := by
  rw [open_video_window_req]
  show videoLabel n = _
  unfold videoLabel millisOfNanos
  rw [if_pos h]
  decide

/-- Claim C10 witness: one nanosecond before the epoch. -/
theorem open_video_window_pre_epoch_witness :
    (open_video_window (fun _ => .ok ()) (-1) argsBase).2.label
      = "video-0".data :=
  open_video_window_pre_epoch (fun _ => .ok ()) argsBase (-1) (by decide)

/-- Claim C5: `report_playback_progress` always emits, under the event
name `playback-progress`, a payload holding exactly the four supplied
fields `server_id`, `content_type`, `content_id`, `progress_secs`,
unchanged. -/
theorem report_playback_progress_payload
    (emit : List Char → Payload → Except (List Char) Unit)
    (server_id content_type : List Char) (content_id : ℤ)
    (progress_secs : ℚ) :
    (report_playback_progress emit server_id content_type content_id
        progress_secs).2
      = ⟨playback_progress_event,
          ⟨server_id, content_type, content_id, progress_secs⟩⟩ := by
  cases h : emit playback_progress_event
      ⟨server_id, content_type, content_id, progress_secs⟩ <;>
    simp [report_playback_progress, h]

/-- Claim C6: `report_playback_progress` returns an error exactly when the
event bus rejects the emission, and then its error string is the bus's
error text verbatim; otherwise it returns success. -/
theorem report_playback_progress_result
    (emit : List Char → Payload → Except (List Char) Unit)
    (server_id content_type : List Char) (content_id : ℤ)
    (progress_secs : ℚ) :
    (∀ e, (report_playback_progress emit server_id content_type content_id
          progress_secs).1 = .error e
        ↔ emit playback_progress_event
            ⟨server_id, content_type, content_id, progress_secs⟩ = .error e) ∧
    ((report_playback_progress emit server_id content_type content_id
          progress_secs).1 = .ok ()
        ↔ emit playback_progress_event
            ⟨server_id, content_type, content_id, progress_secs⟩ = .ok ()) := by
  cases h : emit playback_progress_event
      ⟨server_id, content_type, content_id, progress_secs⟩ with
  | error e => simp [report_playback_progress, h]
  | ok v =>
    cases v
    simp [report_playback_progress, h]

end TvX
